import Mathlib

/-!
Verification of the event-emission core of `jupyter_events/logger.py`
(class `EventLogger`): callback tables keyed by schema id, the
validate/modify/record/dispatch pipeline of `emit`, and the
registration API.  Python dictionaries are modelled as association
lists over `String` keys (a missing key raises `KeyError`), Python
sets of callables as duplicate-free lists keyed by an object-identity
tag, and the external `SchemaRegistry` collaborator as a mapping from
schema ids to descriptors carrying an id, a version and a pure
validation predicate.  `emit` is translated statement by statement,
threading an explicit trace of its observable effects (warnings,
validations performed, records handed to the logger, scheduled
listener invocations).
-/

/-- A JSON-ish value stored in event data and envelopes. -/
inductive Value where
  | str (s : String)
  | int (n : Int)
deriving DecidableEq

/-- Event data / envelopes: a Python dict with string keys. -/
abbrev Data := List (String × Value)

/-- `d[k]` for a Python dict: the value at the first matching entry. -/
def dictLookup {α : Type} : List (String × α) → String → Option α
  | [], _ => none
  | (k, v) :: rest, key => if key = k then some v else dictLookup rest key

/-- `d[k] = v` for a Python dict: replace the entry in place, else append. -/
def dictSet {α : Type} : List (String × α) → String → α → List (String × α)
  | [], key, v => [(key, v)]
  | (k, w) :: rest, key, v =>
      if key = k then (k, v) :: rest else (k, w) :: dictSet rest key v

/-- `d.update(e)` for Python dicts: set every entry of `e` in order. -/
def dictUpdate {α : Type} (d e : List (String × α)) : List (String × α) :=
  e.foldl (fun acc kv => dictSet acc kv.1 kv.2) d

/-- A `datetime` object, reduced to what `emit` uses of it. -/
structure Datetime where
  isoformat : String
deriving DecidableEq

/-- Exceptions the modelled code can raise. -/
inductive PyError where
  | keyError (k : String)
  | validationError
  | modifierError
  | listenerError
deriving DecidableEq

/-- Modelled from the spec: the schema descriptor owned by the external
`SchemaRegistry` — an id, a declared version, and an opaque pure
validation capability `validate(data) -> ok | ValidationError`. -/
structure Schema where
  id : String
  version : Value
  valid : Data → Bool

/-- Modelled from the spec: the external `SchemaRegistry` state — a mapping
from schema ids to descriptors. -/
abbrev Registry := List (String × Schema)

/-- Modelled from the spec: `SchemaRegistry.validate_event` — resolve the id
and run the descriptor's validation, raising `ValidationError` on failure. -/
def validateEvent (reg : Registry) (schema_id : String) (d : Data) : Except PyError Unit :=
  match dictLookup reg schema_id with
  | none => .error (.keyError schema_id)
  | some s => if s.valid d then .ok () else .error .validationError

/-- A modifier callable: an object-identity tag (Python sets of callables
compare by identity), an `inspect.signature` rendering, and its behaviour
`(schema_id, data) -> data`. -/
structure Modifier where
  id : Nat
  sig : String
  fn : String → Data → Data

/-- A listener callable: identity tag and `inspect.signature` rendering
(its asynchronous body is only ever scheduled, never run, by `emit`). -/
structure Listener where
  id : Nat
  sig : String

/-- The signature enforced by `add_modifier`. -/
def expectedModifierSig : String := "(schema_id: str, data: dict) -> dict"

/-- The signature enforced by `add_listener`. -/
def expectedListenerSig : String := "(logger: EventLogger, schema_id: str, data: dict) -> None"

/-- Python set `.add` on a set of callables (identity-keyed, no duplicates). -/
def setAdd {α : Type} (tag : α → Nat) (l : List α) (a : α) : List α :=
  if l.any (fun x => tag x = tag a) then l else l ++ [a]

/-- Python set `.discard` on a set of callables (identity-keyed). -/
def setDiscard {α : Type} (tag : α → Nat) (l : List α) (a : α) : List α :=
  l.filter (fun x => tag x ≠ tag a)

/-- The mutable state of an `EventLogger`: its handlers (only identity
matters to the modelled logic), the schema registry, and the three
callback tables `_modifiers`, `_modified_listeners`, `_unmodified_listeners`. -/
structure EventLoggerState where
  handlers : List Nat
  registry : Registry
  modifiers : List (String × List Modifier)
  modifiedListeners : List (String × List Listener)
  unmodifiedListeners : List (String × List Listener)

/-- Modelled from the spec: `SchemaRegistry.register` stores the descriptor
under its id (acceptance policy is the registry's own; the accepted case). -/
def registryRegister (reg : Registry) (es : Schema) : Registry :=
  dictSet reg es.id es

/-- `EventLogger.register_event_schema`: register with the schema registry,
then initialize empty modifier/listener sets under the returned id. -/
def registerEventSchema (st : EventLoggerState) (es : Schema) : EventLoggerState :=
  { st with
    registry := registryRegister st.registry es
    modifiers := dictSet st.modifiers es.id []
    modifiedListeners := dictSet st.modifiedListeners es.id []
    unmodifiedListeners := dictSet st.unmodifiedListeners es.id [] }

/-- `schema_id if schema_id else ...`: Python truthiness of an optional
string (`None` and the empty string are falsy). -/
def truthy : Option String → Bool
  | none => false
  | some s => !(s.isEmpty)

/-- The `for id in self._modifiers` loop of `add_modifier` (the branch taken
when `schema_id` is falsy): add the modifier to each matching schema's set. -/
def addModifierAll (st : EventLoggerState) (oSid : Option String) (m : Modifier) :
    EventLoggerState :=
  (st.modifiers.map Prod.fst).foldl
    (fun acc id =>
      if (match oSid with | none => true | some s => id = s) then
        match dictLookup acc.modifiers id with
        | some ms => { acc with modifiers := dictSet acc.modifiers id (setAdd Modifier.id ms m) }
        | none => acc
      else acc)
    st

/-- `EventLogger.add_modifier`: enforce the modifier signature, then add to
one schema's set (truthy `schema_id`) or to every schema in `_modifiers`. -/
def addModifier (st : EventLoggerState) (oSid : Option String) (m : Modifier) :
    Except PyError EventLoggerState :=
  if m.sig = expectedModifierSig then
    if truthy oSid then
      match oSid with
      | some s =>
        match dictLookup st.modifiers s with
        | none => .error (.keyError s)
        | some ms =>
            .ok { st with modifiers := dictSet st.modifiers s (setAdd Modifier.id ms m) }
      | none => .ok st
    else .ok (addModifierAll st oSid m)
  else .error .modifierError

/-- The `for schema_id in self.schemas.schema_ids` loop of `remove_modifier`
(the branch taken when `schema_id` is falsy); the source discards twice. -/
def removeModifierAll (st : EventLoggerState) (m : Modifier) :
    Except PyError EventLoggerState :=
  (st.registry.map Prod.fst).foldlM
    (fun acc id =>
      match dictLookup acc.modifiers id with
      | none => .error (.keyError id)
      | some ms =>
          .ok { acc with
                modifiers :=
                  dictSet acc.modifiers id
                    (setDiscard Modifier.id (setDiscard Modifier.id ms m) m) })
    st

/-- `EventLogger.remove_modifier`: discard from one schema's set (truthy
`schema_id`) or from the set of every id in `schemas.schema_ids`. -/
def removeModifier (st : EventLoggerState) (oSid : Option String) (m : Modifier) :
    Except PyError EventLoggerState :=
  if truthy oSid then
    match oSid with
    | some s =>
      match dictLookup st.modifiers s with
      | none => .error (.keyError s)
      | some ms =>
          .ok { st with modifiers := dictSet st.modifiers s (setDiscard Modifier.id ms m) }
    | none => .ok st
  else removeModifierAll st m

/-- The `for id in self.schemas.schema_ids` loop of `add_listener`: reached
when `schema_id` is falsy, and also (fall-through) after a direct add to the
unmodified set.  In the unmodified branch the source indexes
`_unmodified_listeners` with the outer `schema_id` variable, not the loop
variable `id` (a `KeyError: None` when `schema_id` is `None`). -/
def addListenerStep (modified : Bool) (oSid : Option String) (l : Listener)
    (acc : EventLoggerState) (id : String) : Except PyError EventLoggerState :=
  if (match oSid with | none => true | some s => id = s) then
    if modified then
      match dictLookup acc.modifiedListeners id with
      | none => .error (.keyError id)
      | some ls =>
          .ok { acc with
                modifiedListeners :=
                  dictSet acc.modifiedListeners id (setAdd Listener.id ls l) }
    else
      match oSid with
      | none => .error (.keyError "None")
      | some s =>
        match dictLookup acc.unmodifiedListeners s with
        | none => .error (.keyError s)
        | some ls =>
            .ok { acc with
                  unmodifiedListeners :=
                    dictSet acc.unmodifiedListeners s (setAdd Listener.id ls l) }
  else .ok acc

/-- The iteration of `addListenerStep` over a list of schema ids,
propagating a raised exception. -/
def addListenerFold (modified : Bool) (oSid : Option String) (l : Listener) :
    List String → EventLoggerState → Except PyError EventLoggerState
  | [], acc => .ok acc
  | id :: rest, acc =>
    match addListenerStep modified oSid l acc id with
    | .error e => .error e
    | .ok acc2 => addListenerFold modified oSid l rest acc2

/-- The loop itself, over `self.schemas.schema_ids`. -/
def addListenerLoop (st0 : EventLoggerState) (modified : Bool) (oSid : Option String)
    (l : Listener) : Except PyError EventLoggerState :=
  addListenerFold modified oSid l (st0.registry.map Prod.fst) st0

/-- `EventLogger.add_listener`: enforce the listener signature; with a truthy
`schema_id` add to that schema's modified set (early return) or unmodified
set (falling through to the all-schemas loop); otherwise run the loop. -/
def addListener (st : EventLoggerState) (modified : Bool) (oSid : Option String)
    (l : Listener) : Except PyError EventLoggerState :=
  if l.sig = expectedListenerSig then
    if truthy oSid then
      match oSid with
      | some s =>
        if modified then
          match dictLookup st.modifiedListeners s with
          | none => .error (.keyError s)
          | some ls =>
              .ok { st with
                    modifiedListeners :=
                      dictSet st.modifiedListeners s (setAdd Listener.id ls l) }
        else
          match dictLookup st.unmodifiedListeners s with
          | none => .error (.keyError s)
          | some ls =>
              addListenerLoop
                { st with
                  unmodifiedListeners :=
                    dictSet st.unmodifiedListeners s (setAdd Listener.id ls l) }
                modified oSid l
      | none => .ok st
    else addListenerLoop st modified oSid l
  else .error .listenerError

/-- The `for schema_id in self.schemas.schema_ids` loop of `remove_listener`
(falsy `schema_id`): discard the listener from both sets of every schema. -/
def removeListenerAll (st0 : EventLoggerState) (l : Listener) :
    Except PyError EventLoggerState :=
  (st0.registry.map Prod.fst).foldlM
    (fun acc id =>
      match dictLookup acc.modifiedListeners id with
      | none => .error (.keyError id)
      | some mls =>
        match dictLookup acc.unmodifiedListeners id with
        | none => .error (.keyError id)
        | some uls =>
            .ok { acc with
                  modifiedListeners :=
                    dictSet acc.modifiedListeners id (setDiscard Listener.id mls l)
                  unmodifiedListeners :=
                    dictSet acc.unmodifiedListeners id (setDiscard Listener.id uls l) })
    st0

/-- `EventLogger.remove_listener`: with a truthy `schema_id` discard from
both of that schema's sets; otherwise discard from every schema's sets. -/
def removeListener (st : EventLoggerState) (oSid : Option String) (l : Listener) :
    Except PyError EventLoggerState :=
  if truthy oSid then
    match oSid with
    | some s =>
      match dictLookup st.modifiedListeners s with
      | none => .error (.keyError s)
      | some mls =>
        match dictLookup st.unmodifiedListeners s with
        | none => .error (.keyError s)
        | some uls =>
            .ok { st with
                  modifiedListeners :=
                    dictSet st.modifiedListeners s (setDiscard Listener.id mls l)
                  unmodifiedListeners :=
                    dictSet st.unmodifiedListeners s (setDiscard Listener.id uls l) }
    | none => .ok st
  else removeListenerAll st l

/-- The observable effects of one `emit` call: `SchemaNotRegistered`
warnings issued, whether the raw and the modified data were validated,
how many modifier calls ran, capsules handed to the logger (and so to
every attached handler), and the listener invocations scheduled
(listener identity paired with the data it will receive). -/
structure Trace where
  warned : List String
  rawValidated : Bool
  modifiedValidated : Bool
  modifierApplications : Nat
  logged : List Data
  scheduled : List (Nat × Data)
deriving DecidableEq

/-- The empty trace. -/
def Trace.empty : Trace := ⟨[], false, false, 0, [], []⟩

/-- The modifier loop of `emit`: fold every modifier over the deep copy. -/
def applyMods (schema_id : String) (ms : List Modifier) (d : Data) : Data :=
  ms.foldl (fun acc m => m.fn schema_id acc) d

/-- `EVENTS_METADATA_VERSION`. -/
def EVENTS_METADATA_VERSION : Int := 1

/-- The reserved-field capsule built by `emit` before merging event data. -/
def reservedCapsule (schema_id : String) (schema : Schema) (timestamp : Datetime) : Data :=
  [("__timestamp__", .str (timestamp.isoformat ++ "Z")),
   ("__schema__", .str schema_id),
   ("__schema_version__", schema.version),
   ("__metadata_version__", .int EVENTS_METADATA_VERSION)]

/-- Tail of `emit` from the validation of the modified data onward:
validate, build the capsule, hand it to the logger, then schedule the
modified and unmodified listeners. -/
def emitValidateModified (st : EventLoggerState) (schema_id : String) (data md : Data)
    (tr : Trace) (schema : Schema) (tso : Option Datetime) (now : Datetime) :
    Trace × Except PyError (Option Data) :=
  let tr3 := { tr with modifiedValidated := true }
  match validateEvent st.registry schema_id md with
  | .error e => (tr3, .error e)
  | .ok _ =>
    let timestamp := tso.getD now
    let capsule := dictUpdate (reservedCapsule schema_id schema timestamp) md
    let tr4 := { tr3 with logged := [capsule] }
    match dictLookup st.modifiedListeners schema_id with
    | none => (tr4, .error (.keyError schema_id))
    | some mls =>
      let tr5 := { tr4 with scheduled := mls.map (fun l => (l.id, md)) }
      match dictLookup st.unmodifiedListeners schema_id with
      | none => (tr5, .error (.keyError schema_id))
      | some uls =>
          ({ tr5 with scheduled := tr5.scheduled ++ uls.map (fun l => (l.id, data)) },
           .ok (some capsule))

/-- `emit` after the fast exit: registration check (warn and return `None`
for unknown ids), deep copy and modifier chain, raw-data validation gated
on the unmodified-listener set, then the tail `emitValidateModified`. -/
def emitChecked (st : EventLoggerState) (schema_id : String) (data : Data)
    (tso : Option Datetime) (now : Datetime) : Trace × Except PyError (Option Data) :=
  match dictLookup st.registry schema_id with
  | none => ({ Trace.empty with warned := [schema_id] }, .ok none)
  | some schema =>
    match dictLookup st.modifiers schema.id with
    | none => (Trace.empty, .error (.keyError schema.id))
    | some ms =>
      let md := applyMods schema_id ms data
      let tr1 := { Trace.empty with modifierApplications := ms.length }
      match dictLookup st.unmodifiedListeners schema.id with
      | none => (tr1, .error (.keyError schema.id))
      | some uls =>
        if uls.isEmpty then
          emitValidateModified st schema_id data md tr1 schema tso now
        else
          let tr2 := { tr1 with rawValidated := true }
          match validateEvent st.registry schema_id data with
          | .error e => (tr2, .error e)
          | .ok _ => emitValidateModified st schema_id data md tr2 schema tso now

/-- `EventLogger.emit`: the fast exit (`not self.handlers and not
self._modified_listeners[schema_id] and not self._unmodified_listeners
[schema_id]`, with Python short-circuiting — the dict subscripts raise
`KeyError` for an id that is not a key), then the checked pipeline. -/
def emit (st : EventLoggerState) (schema_id : String) (data : Data)
    (tso : Option Datetime) (now : Datetime) : Trace × Except PyError (Option Data) :=
  if st.handlers.isEmpty then
    match dictLookup st.modifiedListeners schema_id with
    | none => (Trace.empty, .error (.keyError schema_id))
    | some mls =>
      if mls.isEmpty then
        match dictLookup st.unmodifiedListeners schema_id with
        | none => (Trace.empty, .error (.keyError schema_id))
        | some uls =>
          if uls.isEmpty then (Trace.empty, .ok none)
          else emitChecked st schema_id data tso now
      else emitChecked st schema_id data tso now
  else emitChecked st schema_id data tso now

/-- A heap of dict objects, for the aliasing-sensitive modification phase
of `emit` (`modified_data = copy.deepcopy(data)` followed by the modifier
loop): references are allocation indices below `next`. -/
structure Heap where
  next : Nat
  mem : Nat → Data

/-- Overwrite the object at reference `r` (an in-place dict mutation). -/
def writeMem (h : Heap) (r : Nat) (d : Data) : Heap :=
  { h with mem := fun s => if s = r then d else h.mem s }

/-- Allocate a fresh object holding `d`; returns the new heap and reference. -/
def heapAlloc (h : Heap) (d : Data) : Heap × Nat :=
  ({ next := h.next + 1, mem := fun s => if s = h.next then d else h.mem s }, h.next)

/-- A modifier as `emit` calls it, with its possible in-place effects: from
the value of its `data` argument it determines the state it leaves that
argument object in, and its return value — `none` meaning it returns the
argument object itself, `some d` a newly built dict `d`. -/
structure PyModifier where
  run : Data → Data × Option Data

/-- One iteration of the modifier loop: call the modifier on the current
object, apply its in-place effect, and rebind `modified_data` to what it
returned. -/
def applyModifierH (hr : Heap × Nat) (m : PyModifier) : Heap × Nat :=
  let h1 := writeMem hr.1 hr.2 (m.run (hr.1.mem hr.2)).1
  match (m.run (hr.1.mem hr.2)).2 with
  | none => (h1, hr.2)
  | some d => heapAlloc h1 d

/-- `copy.deepcopy(data)`: allocate a fresh object with the same value. -/
def deepcopy (h : Heap) (r : Nat) : Heap × Nat := heapAlloc h (h.mem r)

/-- Lines 357-360 of `logger.py`: deep-copy the caller's dict, then run
every registered modifier over the copy. -/
def modificationPhase (h : Heap) (r : Nat) (ms : List PyModifier) : Heap × Nat :=
  ms.foldl applyModifierH (deepcopy h r)

/-- A fixed wall-clock instant for concrete runs. -/
def dt0 : Datetime := ⟨"2024-01-01T00:00:00"⟩

/-- A fresh `EventLogger`: no handlers, nothing registered. -/
def stEmpty : EventLoggerState := ⟨[], [], [], [], []⟩

/-- A fresh `EventLogger` with one handler attached. -/
def stHandler : EventLoggerState := ⟨[0], [], [], [], []⟩

/-- A schema accepting every event. -/
def schemaS : Schema := ⟨"S", .int 1, fun _ => true⟩

/-- A schema requiring a field `x` (as in the spec's concrete scenario). -/
def schemaX : Schema := ⟨"S", .int 1, fun d => (dictLookup d "x").isSome⟩

/-- A well-typed listener callable. -/
def cL : Listener := ⟨7, expectedListenerSig⟩

/-- A second well-typed listener callable. -/
def cL2 : Listener := ⟨8, expectedListenerSig⟩

/-- A well-typed modifier callable returning its input. -/
def cM : Modifier := ⟨1, expectedModifierSig, fun _ d => d⟩

/-- A well-typed modifier callable that inserts the field `x` required by
`schemaX` (it "fixes" invalid raw data). -/
def cMfix : Modifier := ⟨2, expectedModifierSig, fun _ d => dictSet d "x" (.int 1)⟩

/-- Logger with handler, schema `S` registered (accepts everything), and
empty callback sets. -/
def stS : EventLoggerState := ⟨[0], [("S", schemaS)], [("S", [])], [("S", [])], [("S", [])]⟩

/-- Logger with handler, schema `S` registered (requires `x`), the fixing
modifier installed, and no listeners. -/
def stXfix : EventLoggerState :=
  ⟨[0], [("S", schemaX)], [("S", [cMfix])], [("S", [])], [("S", [])]⟩

/-- Like `stXfix` but with an unmodified-listener registered for `S`. -/
def stXfixRaw : EventLoggerState :=
  ⟨[0], [("S", schemaX)], [("S", [cMfix])], [("S", [])], [("S", [cL])]⟩

/-- A two-object heap: the caller's dict lives at reference 0. -/
def cHeap : Heap := ⟨1, fun _ => [("x", .int 1)]⟩

/-- Two concrete modifiers for the heap model: one mutates its argument in
place and returns it, one builds and returns a fresh dict. -/
def cPyMs : List PyModifier :=
  [⟨fun d => (dictSet d "x" (.int 2), none)⟩,
   ⟨fun d => (d, some (dictSet d "y" (.int 3)))⟩]

/-- Logger with handler, schema `S` registered (requires `x`), and no
modifiers or listeners: emitting `{}` fails validation of the modified data. -/
def stXempty : EventLoggerState :=
  ⟨[0], [("S", schemaX)], [("S", [])], [("S", [])], [("S", [])]⟩

/-- Like `stXempty` but with no handlers and one modified-listener for `S`:
a listener-only configuration that still reaches the validation step. -/
def stXlistener : EventLoggerState :=
  ⟨[], [("S", schemaX)], [("S", [])], [("S", [cL])], [("S", [])]⟩

/-- The envelope recorded by the C5 witness run. -/
def cCap : Data := dictUpdate (reservedCapsule "S" schemaS dt0) [("a", Value.int 5)]

/-- The envelope recorded by the C9 witness run. -/
def cCap9 : Data :=
  dictUpdate (reservedCapsule "S" schemaS dt0) [("__schema__", Value.str "fake")]

/-- Logger with schema `S` registered and all callback sets empty. -/
def stRT : EventLoggerState := ⟨[], [("S", schemaS)], [("S", [])], [("S", [])], [("S", [])]⟩

/-- Logger with schema `S` registered and the modifier `cM` already
installed for it. -/
def stRTm : EventLoggerState :=
  ⟨[], [("S", schemaS)], [("S", [cM])], [("S", [])], [("S", [])]⟩

/-- Logger with schema `S` registered and nonempty callback sets. -/
def stPrev : EventLoggerState :=
  ⟨[], [("S", schemaS)], [("S", [cM])], [("S", [cL])], [("S", [cL2])]⟩

theorem dictLookup_dictSet {α : Type} (d : List (String × α)) (k key : String) (v : α) :
    dictLookup (dictSet d k v) key = if key = k then some v else dictLookup d key := by
  induction d with
  | nil => by_cases h : key = k <;> simp [dictSet, dictLookup, h]
  | cons hd tl ih =>
    obtain ⟨k0, w⟩ := hd
    by_cases h0 : k = k0
    · subst h0
      by_cases h : key = k <;> simp [dictSet, dictLookup, h]
    · by_cases h : key = k0
      · subst h
        have : ¬ key = k := fun hh => h0 (hh ▸ rfl)
        simp [dictSet, dictLookup, h0, this, fun hh => h0 (Eq.symm hh)]
      · simp [dictSet, dictLookup, h0, h, ih]

theorem dictSet_dictSet {α : Type} (d : List (String × α)) (k : String) (v w : α) :
    dictSet (dictSet d k v) k w = dictSet d k w := by
  induction d with
  | nil => simp [dictSet]
  | cons hd tl ih =>
    obtain ⟨k0, u⟩ := hd
    by_cases h : k = k0 <;> simp [dictSet, h, ih]

theorem dictSet_self {α : Type} (d : List (String × α)) (k : String) (v : α)
    (h : dictLookup d k = some v) : dictSet d k v = d := by
  induction d with
  | nil => simp [dictLookup] at h
  | cons hd tl ih =>
    obtain ⟨k0, u⟩ := hd
    by_cases hk : k = k0
    · subst hk
      simp [dictLookup] at h
      simp [dictSet, h]
    · simp [dictLookup, hk] at h
      simp [dictSet, hk, ih h]

theorem dictLookup_none_iff {α : Type} (d : List (String × α)) (k : String) :
    dictLookup d k = none ↔ k ∉ d.map Prod.fst := by
  induction d with
  | nil => simp [dictLookup]
  | cons hd tl ih =>
    obtain ⟨k0, v⟩ := hd
    by_cases h : k = k0 <;> simp [dictLookup, h, ih]

theorem dictLookup_dictUpdate_none {α : Type} (d e : List (String × α)) (k : String)
    (h : dictLookup e k = none) : dictLookup (dictUpdate d e) k = dictLookup d k := by
  induction e generalizing d with
  | nil => simp [dictUpdate]
  | cons hd tl ih =>
    obtain ⟨k0, v⟩ := hd
    by_cases hk : k = k0
    · subst hk
      simp [dictLookup] at h
    · simp [dictLookup, hk] at h
      have := ih (dictSet d k0 v) h
      simp [dictUpdate] at this ⊢
      rw [this, dictLookup_dictSet]
      simp [hk]

theorem dictLookup_dictUpdate_some {α : Type} (d e : List (String × α)) (k : String)
    (hnd : (e.map Prod.fst).Nodup) (h : (dictLookup e k).isSome) :
    dictLookup (dictUpdate d e) k = dictLookup e k := by
  induction e generalizing d with
  | nil => simp [dictLookup] at h
  | cons hd tl ih =>
    obtain ⟨k0, v⟩ := hd
    rw [List.map_cons, List.nodup_cons] at hnd
    have hstep : dictUpdate d ((k0, v) :: tl) = dictUpdate (dictSet d k0 v) tl := rfl
    by_cases hk : k = k0
    · subst hk
      have htl : dictLookup tl k = none := (dictLookup_none_iff tl k).mpr hnd.1
      rw [hstep, dictLookup_dictUpdate_none _ _ _ htl, dictLookup_dictSet]
      simp [dictLookup]
    · simp [dictLookup, hk] at h ⊢
      rw [hstep, ih (dictSet d k0 v) hnd.2 h]

theorem dictLookup_dictUpdate_isSome {α : Type} (d e : List (String × α)) (k : String)
    (h : (dictLookup d k).isSome) : (dictLookup (dictUpdate d e) k).isSome := by
  induction e generalizing d with
  | nil => simpa [dictUpdate] using h
  | cons hd tl ih =>
    obtain ⟨k0, v⟩ := hd
    have hset : (dictLookup (dictSet d k0 v) k).isSome := by
      rw [dictLookup_dictSet]
      by_cases hk : k = k0 <;> simp [hk, h]
    simpa [dictUpdate] using ih (dictSet d k0 v) hset

theorem modifierFold_frame (ms : List PyModifier) (n0 : Nat) (p : Heap × Nat)
    (h1 : n0 ≤ p.1.next) (h2 : n0 ≤ p.2) :
    (n0 ≤ (ms.foldl applyModifierH p).1.next ∧ n0 ≤ (ms.foldl applyModifierH p).2)
    ∧ ∀ s, s < n0 → (ms.foldl applyModifierH p).1.mem s = p.1.mem s := by
  induction ms generalizing p with
  | nil => exact ⟨⟨h1, h2⟩, fun s _ => rfl⟩
  | cons m rest ih =>
    obtain ⟨h, r⟩ := p
    replace h1 : n0 ≤ h.next := h1
    replace h2 : n0 ≤ r := h2
    have hq1 : n0 ≤ (applyModifierH (h, r) m).1.next := by
      unfold applyModifierH writeMem heapAlloc
      cases (m.run (h.mem r)).2 <;> simp <;> omega
    have hq2 : n0 ≤ (applyModifierH (h, r) m).2 := by
      unfold applyModifierH writeMem heapAlloc
      cases (m.run (h.mem r)).2 <;> simp <;> omega
    have hqm : ∀ s, s < n0 → (applyModifierH (h, r) m).1.mem s = h.mem s := by
      intro s hs
      have hsr : s ≠ r := by omega
      have hsn : s ≠ h.next := by omega
      unfold applyModifierH writeMem heapAlloc
      cases (m.run (h.mem r)).2 <;> simp [hsr, hsn]
    have step := ih (applyModifierH (h, r) m) hq1 hq2
    refine ⟨step.1, fun s hs => ?_⟩
    calc (List.foldl applyModifierH (applyModifierH (h, r) m) rest).1.mem s
        = (applyModifierH (h, r) m).1.mem s := step.2 s hs
      _ = h.mem s := hqm s hs

/-- Claim C7: `emit` never mutates the caller-supplied data mapping —
modifiers run only against the deep copy allocated by
`copy.deepcopy(data)`, so whatever they mutate or return, the caller's
object is untouched when the modification phase is done. -/
theorem c7_emit_never_mutates_caller_data (h : Heap) (r : Nat) (ms : List PyModifier)
    (hr : r < h.next) : ((modificationPhase h r ms).1).mem r = h.mem r := by
  have hbase := modifierFold_frame ms h.next (deepcopy h r)
    (by unfold deepcopy heapAlloc; simp) (by unfold deepcopy heapAlloc; simp)
  unfold modificationPhase
  rw [hbase.2 r hr]
  unfold deepcopy heapAlloc
  have : r ≠ h.next := by omega
  simp [this]

/-- Witness for C7 at a concrete heap and modifier chain. -/
theorem c7_witness : ((modificationPhase cHeap 0 cPyMs).1).mem 0 = cHeap.mem 0 :=
  c7_emit_never_mutates_caller_data cHeap 0 cPyMs (by decide)

/-- Claim C1 (code bug): emitting against an unregistered schema id is
claimed never to raise, for any handler configuration.  With a handler
attached the code indeed warns and returns `None` (second conjunct), but
with no handlers the fast-exit check subscripts
`self._modified_listeners[schema_id]` before the registration check and
raises `KeyError` (first conjunct), contradicting the code's own comment
and the `SchemaNotRegistered` docstring. -/
theorem c1_unregistered_emit_keyerror :
    emit stEmpty "unregistered" [] none dt0
      = (Trace.empty, .error (.keyError "unregistered"))
    ∧ emit stHandler "unregistered" [] none dt0
      = ({ Trace.empty with warned := ["unregistered"] }, .ok none) :=
  ⟨rfl, rfl⟩

/-- Claim C2 (code bug): `add_listener(modified=False, schema_id=None, ...)`
is claimed to add the listener to every registered schema's
unmodified-listener set.  With schema `S` registered, the loop's else
branch subscripts `_unmodified_listeners` with the outer `schema_id`
(`None`) instead of the loop variable, raising `KeyError` — the latent bug
the spec itself flags. -/
theorem c2_add_unmodified_listener_all_keyerror :
    addListener (registerEventSchema stEmpty schemaS) false none cL
      = .error (.keyError "None") := rfl

theorem emitVM_modifiedValidated (st : EventLoggerState) (schema_id : String)
    (data md : Data) (tr0 : Trace) (schema : Schema) (tso : Option Datetime)
    (now : Datetime) (tr : Trace) (res : Except PyError (Option Data))
    (h : emitValidateModified st schema_id data md tr0 schema tso now = (tr, res)) :
    tr.modifiedValidated = true := by
  simp only [emitValidateModified] at h
  split at h
  · cases h; rfl
  · split at h
    · cases h; rfl
    · split at h
      · cases h; rfl
      · cases h; rfl

theorem emitVM_ok_spec (st : EventLoggerState) (schema_id : String)
    (data md : Data) (tr0 : Trace) (schema : Schema) (tso : Option Datetime)
    (now : Datetime) (tr : Trace) (c : Data)
    (h : emitValidateModified st schema_id data md tr0 schema tso now = (tr, .ok (some c))) :
    c = dictUpdate (reservedCapsule schema_id schema (tso.getD now)) md
    ∧ tr.logged = [c] := by
  simp only [emitValidateModified] at h
  split at h
  · simp at h
  · split at h
    · simp at h
    · split at h
      · simp at h
      · rw [Prod.mk.injEq] at h
        have hc : c = dictUpdate (reservedCapsule schema_id schema (tso.getD now)) md := by
          have := h.2
          simp at this
          exact this.symm
        subst hc
        exact ⟨rfl, by rw [← h.1]⟩

theorem emitChecked_ok_spec (st : EventLoggerState) (schema_id : String)
    (data : Data) (tso : Option Datetime) (now : Datetime) (schema : Schema)
    (ms : List Modifier) (tr : Trace) (c : Data)
    (hreg : dictLookup st.registry schema_id = some schema)
    (hid : schema.id = schema_id)
    (hms : dictLookup st.modifiers schema_id = some ms)
    (h : emitChecked st schema_id data tso now = (tr, .ok (some c))) :
    c = dictUpdate (reservedCapsule schema_id schema (tso.getD now))
          (applyMods schema_id ms data)
    ∧ tr.logged = [c] := by
  simp only [emitChecked, hreg, hid, hms] at h
  split at h
  · simp at h
  · split at h
    · exact emitVM_ok_spec _ _ _ _ _ _ _ _ _ _ h
    · split at h
      · simp at h
      · exact emitVM_ok_spec _ _ _ _ _ _ _ _ _ _ h

theorem emit_ok_spec (st : EventLoggerState) (schema_id : String)
    (data : Data) (tso : Option Datetime) (now : Datetime) (schema : Schema)
    (ms : List Modifier) (tr : Trace) (c : Data)
    (hreg : dictLookup st.registry schema_id = some schema)
    (hid : schema.id = schema_id)
    (hms : dictLookup st.modifiers schema_id = some ms)
    (h : emit st schema_id data tso now = (tr, .ok (some c))) :
    c = dictUpdate (reservedCapsule schema_id schema (tso.getD now))
          (applyMods schema_id ms data)
    ∧ tr.logged = [c] := by
  simp only [emit] at h
  split at h
  · split at h
    · simp at h
    · split at h
      · split at h
        · simp at h
        · split at h
          · simp at h
          · exact emitChecked_ok_spec _ _ _ _ _ _ _ _ _ hreg hid hms h
      · exact emitChecked_ok_spec _ _ _ _ _ _ _ _ _ hreg hid hms h
  · exact emitChecked_ok_spec _ _ _ _ _ _ _ _ _ hreg hid hms h

theorem emitChecked_logged_mv (st : EventLoggerState) (schema_id : String)
    (data : Data) (tso : Option Datetime) (now : Datetime) (tr : Trace)
    (res : Except PyError (Option Data))
    (h : emitChecked st schema_id data tso now = (tr, res))
    (hlog : tr.logged ≠ []) : tr.modifiedValidated = true := by
  simp only [emitChecked] at h
  split at h
  · cases h; simp [Trace.empty] at hlog
  · split at h
    · cases h; simp [Trace.empty] at hlog
    · split at h
      · cases h; simp [Trace.empty] at hlog
      · split at h
        · exact emitVM_modifiedValidated _ _ _ _ _ _ _ _ _ _ h
        · split at h
          · cases h; simp [Trace.empty] at hlog
          · exact emitVM_modifiedValidated _ _ _ _ _ _ _ _ _ _ h

theorem emit_logged_mv (st : EventLoggerState) (schema_id : String)
    (data : Data) (tso : Option Datetime) (now : Datetime) (tr : Trace)
    (res : Except PyError (Option Data))
    (h : emit st schema_id data tso now = (tr, res))
    (hlog : tr.logged ≠ []) : tr.modifiedValidated = true := by
  simp only [emit] at h
  split at h
  · split at h
    · cases h; simp [Trace.empty] at hlog
    · split at h
      · split at h
        · cases h; simp [Trace.empty] at hlog
        · split at h
          · cases h; simp [Trace.empty] at hlog
          · exact emitChecked_logged_mv _ _ _ _ _ _ _ h hlog
      · exact emitChecked_logged_mv _ _ _ _ _ _ _ h hlog
  · exact emitChecked_logged_mv _ _ _ _ _ _ _ h hlog

theorem emitVM_invalid (st : EventLoggerState) (schema_id : String) (data md : Data)
    (tr0 : Trace) (schema : Schema) (tso : Option Datetime) (now : Datetime)
    (hreg : dictLookup st.registry schema_id = some schema)
    (hbad : schema.valid md = false) :
    emitValidateModified st schema_id data md tr0 schema tso now
      = ({ tr0 with modifiedValidated := true }, .error .validationError) := by
  simp only [emitValidateModified, validateEvent, hreg, hbad]
  simp

theorem emitVM_rawValidated (st : EventLoggerState) (schema_id : String)
    (data md : Data) (tr0 : Trace) (schema : Schema) (tso : Option Datetime)
    (now : Datetime) :
    (emitValidateModified st schema_id data md tr0 schema tso now).1.rawValidated
      = tr0.rawValidated := by
  simp only [emitValidateModified]
  split
  · rfl
  · split
    · rfl
    · split
      · rfl
      · rfl

theorem emitVM_valid (st : EventLoggerState) (schema_id : String) (data md : Data)
    (tr0 : Trace) (schema : Schema) (tso : Option Datetime) (now : Datetime)
    (mls uls2 : List Listener)
    (hreg : dictLookup st.registry schema_id = some schema)
    (hok : schema.valid md = true)
    (hmls : dictLookup st.modifiedListeners schema_id = some mls)
    (huls : dictLookup st.unmodifiedListeners schema_id = some uls2) :
    emitValidateModified st schema_id data md tr0 schema tso now
      = ({ tr0 with
           modifiedValidated := true
           logged := [dictUpdate (reservedCapsule schema_id schema (tso.getD now)) md]
           scheduled := mls.map (fun l => (l.id, md)) ++ uls2.map (fun l => (l.id, data)) },
         .ok (some (dictUpdate (reservedCapsule schema_id schema (tso.getD now)) md))) := by
  simp only [emitValidateModified, validateEvent, hreg, hok, hmls, huls]
  simp

theorem emitChecked_rawValidated (st : EventLoggerState) (schema_id : String)
    (data : Data) (tso : Option Datetime) (now : Datetime) (schema : Schema)
    (ms : List Modifier) (uls : List Listener)
    (hreg : dictLookup st.registry schema_id = some schema)
    (hid : schema.id = schema_id)
    (hms : dictLookup st.modifiers schema_id = some ms)
    (huls : dictLookup st.unmodifiedListeners schema_id = some uls) :
    (emitChecked st schema_id data tso now).1.rawValidated = !uls.isEmpty := by
  simp only [emitChecked, hreg, hid, hms, huls]
  cases hu : uls.isEmpty
  · cases hv : validateEvent st.registry schema_id data
    · simp [hv]
    · simp [hv, emitVM_rawValidated]
  · simp [emitVM_rawValidated, Trace.empty]

theorem emit_fast_exit (st : EventLoggerState) (schema_id : String) (data : Data)
    (tso : Option Datetime) (now : Datetime)
    (hh : st.handlers = [])
    (hmls : dictLookup st.modifiedListeners schema_id = some [])
    (huls : dictLookup st.unmodifiedListeners schema_id = some []) :
    emit st schema_id data tso now = (Trace.empty, .ok none) := by
  simp only [emit, hmls, huls, hh]
  simp

theorem emit_proceeds (st : EventLoggerState) (schema_id : String) (data : Data)
    (tso : Option Datetime) (now : Datetime) (mls uls : List Listener)
    (hmls : dictLookup st.modifiedListeners schema_id = some mls)
    (huls : dictLookup st.unmodifiedListeners schema_id = some uls)
    (h : st.handlers ≠ [] ∨ mls ≠ [] ∨ uls ≠ []) :
    emit st schema_id data tso now = emitChecked st schema_id data tso now := by
  simp only [emit, hmls, huls]
  rcases h with h | h | h
  · have hx : st.handlers.isEmpty = false := by cases hc : st.handlers <;> simp_all
    simp [hx]
  · have hm : mls.isEmpty = false := by cases mls <;> simp_all
    cases hh : st.handlers.isEmpty <;> simp [hm]
  · have hu2 : uls.isEmpty = false := by cases uls <;> simp_all
    cases hh : st.handlers.isEmpty <;> cases hm : mls.isEmpty <;> simp [hm, hu2]

/-- Claim C3: for every registered schema, the modified data is validated
before anything is recorded, and a failed validation of the modified data
aborts the emit atomically.  The abort conjunct holds for every emit call
that passes the fast exit — a handler attached, or either listener set
nonempty (when all three are empty, `emit` returns `none` before reaching
validation): the call raises the validation error, no envelope reaches the
logger/handlers, and no listener invocation is scheduled. -/
theorem c3_invalid_modified_aborts_atomically
    (st : EventLoggerState) (schema_id : String) (data : Data)
    (tso : Option Datetime) (now : Datetime) :
    ((emit st schema_id data tso now).1.logged ≠ [] →
      (emit st schema_id data tso now).1.modifiedValidated = true)
    ∧ (∀ (schema : Schema) (ms : List Modifier) (mls uls : List Listener),
        dictLookup st.registry schema_id = some schema →
        schema.id = schema_id →
        dictLookup st.modifiers schema_id = some ms →
        dictLookup st.modifiedListeners schema_id = some mls →
        dictLookup st.unmodifiedListeners schema_id = some uls →
        (st.handlers ≠ [] ∨ mls ≠ [] ∨ uls ≠ []) →
        schema.valid (applyMods schema_id ms data) = false →
        (emit st schema_id data tso now).2 = .error .validationError
        ∧ (emit st schema_id data tso now).1.logged = []
        ∧ (emit st schema_id data tso now).1.scheduled = []) := by
  constructor
  · intro hlog
    exact emit_logged_mv st schema_id data tso now _ _ rfl hlog
  · intro schema ms mls uls hreg hid hms hmls huls hdisj hbad
    rw [emit_proceeds st schema_id data tso now mls uls hmls huls hdisj]
    simp only [emitChecked, hreg, hid, hms, huls]
    cases hu : uls.isEmpty
    · cases hv : schema.valid data
      · simp [validateEvent, hreg, hv, Trace.empty]
      · simp [validateEvent, hreg, hv, emitVM_invalid, hbad, Trace.empty]
    · simp [emitVM_invalid, hreg, hbad, Trace.empty]

/-- Witness for C3, in a listener-only configuration (no handlers, one
modified-listener): with schema `S` requiring field `x`, emitting `{}`
raises the validation error and records and schedules nothing. -/
theorem c3_witness :
    (emit stXlistener "S" [] none dt0).2 = .error .validationError
    ∧ (emit stXlistener "S" [] none dt0).1.logged = []
    ∧ (emit stXlistener "S" [] none dt0).1.scheduled = [] :=
  (c3_invalid_modified_aborts_atomically stXlistener "S" [] none dt0).2 schemaX [] [cL] []
    rfl rfl rfl rfl rfl (Or.inr (Or.inl (by simp))) rfl

/-- Claim C4: during `emit` for a registered schema, the original data is
validated against the schema exactly when at least one unmodified-listener
is registered for it; with raw-invalid but modified-valid data the emit
fails when such a listener exists and succeeds (recording the envelope)
when none does. -/
theorem c4_raw_validation_iff_unmodified_listener
    (st : EventLoggerState) (schema_id : String) (data : Data)
    (tso : Option Datetime) (now : Datetime) (schema : Schema)
    (ms : List Modifier) (mls uls : List Listener)
    (hreg : dictLookup st.registry schema_id = some schema)
    (hid : schema.id = schema_id)
    (hms : dictLookup st.modifiers schema_id = some ms)
    (hmls : dictLookup st.modifiedListeners schema_id = some mls)
    (huls : dictLookup st.unmodifiedListeners schema_id = some uls) :
    ((emit st schema_id data tso now).1.rawValidated = true ↔ uls ≠ [])
    ∧ (schema.valid data = false →
       schema.valid (applyMods schema_id ms data) = true →
        (uls ≠ [] → (emit st schema_id data tso now).2 = .error .validationError)
        ∧ (uls = [] → st.handlers ≠ [] →
            ∃ c, (emit st schema_id data tso now).2 = .ok (some c)
              ∧ (emit st schema_id data tso now).1.logged = [c])) := by
  have hEC := emitChecked_rawValidated st schema_id data tso now schema ms uls
    hreg hid hms huls
  constructor
  · by_cases h1 : st.handlers = []
    · by_cases h2 : mls = []
      · by_cases h3 : uls = []
        · subst h2; subst h3
          rw [emit_fast_exit st schema_id data tso now h1 hmls huls]
          simp [Trace.empty]
        · rw [emit_proceeds st schema_id data tso now mls uls hmls huls (Or.inr (Or.inr h3))]
          rw [hEC]
          cases uls <;> simp_all
      · rw [emit_proceeds st schema_id data tso now mls uls hmls huls (Or.inr (Or.inl h2))]
        rw [hEC]
        cases uls <;> simp_all
    · rw [emit_proceeds st schema_id data tso now mls uls hmls huls (Or.inl h1)]
      rw [hEC]
      cases uls <;> simp_all
  · intro hvraw hvmod
    constructor
    · intro hune
      rw [emit_proceeds st schema_id data tso now mls uls hmls huls (Or.inr (Or.inr hune))]
      have hu2 : uls.isEmpty = false := by cases uls <;> simp_all
      simp only [emitChecked, hreg, hid, hms, huls, hu2]
      simp [validateEvent, hreg, hvraw]
    · intro hue hh
      subst hue
      rw [emit_proceeds st schema_id data tso now mls [] hmls huls (Or.inl hh)]
      simp only [emitChecked, hreg, hid, hms, huls]
      rw [emitVM_valid st schema_id data (applyMods schema_id ms data) _ schema tso now
        mls [] hreg hvmod hmls huls]
      simp

/-- Witness for C4: raw-invalid data whose modifier inserts the required
field still fails because an unmodified-listener is registered. -/
theorem c4_witness :
    (emit stXfixRaw "S" [] none dt0).2 = .error .validationError :=
  ((c4_raw_validation_iff_unmodified_listener stXfixRaw "S" [] none dt0 schemaX
      [cMfix] [] [cL] rfl rfl rfl rfl rfl).2 rfl rfl).1 (by simp)

/-- Claim C5: every successful emit records and returns the reserved
capsule — `__timestamp__` (ISO timestamp of the override or current time,
with a trailing Z), `__schema__`, `__schema_version__` and
`__metadata_version__` = 1 — merged at the top level with every field of
the modified event data. -/
theorem c5_envelope_shape
    (st : EventLoggerState) (schema_id : String) (data : Data)
    (tso : Option Datetime) (now : Datetime) (schema : Schema)
    (ms : List Modifier) (tr : Trace) (c : Data)
    (hreg : dictLookup st.registry schema_id = some schema)
    (hid : schema.id = schema_id)
    (hms : dictLookup st.modifiers schema_id = some ms)
    (hnd : ((applyMods schema_id ms data).map Prod.fst).Nodup)
    (hres : emit st schema_id data tso now = (tr, .ok (some c))) :
    c = dictUpdate (reservedCapsule schema_id schema (tso.getD now))
          (applyMods schema_id ms data)
    ∧ tr.logged = [c]
    ∧ (∀ k, (dictLookup (applyMods schema_id ms data) k).isSome →
        dictLookup c k = dictLookup (applyMods schema_id ms data) k)
    ∧ (∀ k, k ∈ (reservedCapsule schema_id schema (tso.getD now)).map Prod.fst →
        (dictLookup c k).isSome)
    ∧ (dictLookup (applyMods schema_id ms data) "__timestamp__" = none →
        dictLookup c "__timestamp__" = some (.str ((tso.getD now).isoformat ++ "Z")))
    ∧ (dictLookup (applyMods schema_id ms data) "__schema__" = none →
        dictLookup c "__schema__" = some (.str schema_id))
    ∧ (dictLookup (applyMods schema_id ms data) "__schema_version__" = none →
        dictLookup c "__schema_version__" = some schema.version)
    ∧ (dictLookup (applyMods schema_id ms data) "__metadata_version__" = none →
        dictLookup c "__metadata_version__" = some (.int EVENTS_METADATA_VERSION)) := by
  obtain ⟨hc, hlog⟩ := emit_ok_spec st schema_id data tso now schema ms tr c
    hreg hid hms hres
  subst hc
  refine ⟨rfl, hlog, ?_, ?_, ?_, ?_, ?_, ?_⟩
  · intro k hk
    exact dictLookup_dictUpdate_some _ _ _ hnd hk
  · intro k hk
    have hres2 : dictLookup (reservedCapsule schema_id schema (tso.getD now)) k ≠ none :=
      fun h0 => (dictLookup_none_iff _ _).mp h0 hk
    exact dictLookup_dictUpdate_isSome _ _ _ (Option.ne_none_iff_isSome.mp hres2)
  · intro hnone
    rw [dictLookup_dictUpdate_none _ _ _ hnone]
    rfl
  · intro hnone
    rw [dictLookup_dictUpdate_none _ _ _ hnone]
    rfl
  · intro hnone
    rw [dictLookup_dictUpdate_none _ _ _ hnone]
    rfl
  · intro hnone
    rw [dictLookup_dictUpdate_none _ _ _ hnone]
    rfl

/-- Witness for C5: a concrete emit with data `{a: 5}` yields an envelope
carrying the schema id, the caller field, and the metadata version. -/
theorem c5_witness :
    dictLookup cCap "__schema__" = some (.str "S")
    ∧ dictLookup cCap "a" = some (.int 5)
    ∧ dictLookup cCap "__metadata_version__" = some (.int 1) := by
  have h := c5_envelope_shape stS "S" [("a", Value.int 5)] none dt0 schemaS []
    ⟨[], false, true, 0, [cCap], []⟩ cCap rfl rfl rfl (by decide) rfl
  refine ⟨h.2.2.2.2.2.1 rfl, ?_, h.2.2.2.2.2.2.2 rfl⟩
  exact (h.2.2.1 "a" rfl).trans rfl

/-- Claim C9: since `capsule.update(modified_data)` runs after the reserved
fields are set, a reserved key occurring in the (modified) event data
silently overwrites the framework's value in the recorded and returned
envelope. -/
theorem c9_caller_fields_override_reserved
    (st : EventLoggerState) (schema_id : String) (data : Data)
    (tso : Option Datetime) (now : Datetime) (schema : Schema)
    (ms : List Modifier) (tr : Trace) (c : Data)
    (hreg : dictLookup st.registry schema_id = some schema)
    (hid : schema.id = schema_id)
    (hms : dictLookup st.modifiers schema_id = some ms)
    (hnd : ((applyMods schema_id ms data).map Prod.fst).Nodup)
    (hres : emit st schema_id data tso now = (tr, .ok (some c))) :
    tr.logged = [c]
    ∧ ∀ k, k ∈ ["__timestamp__", "__schema__", "__schema_version__", "__metadata_version__"] →
        (dictLookup (applyMods schema_id ms data) k).isSome →
        dictLookup c k = dictLookup (applyMods schema_id ms data) k := by
  obtain ⟨hc, hlog⟩ := emit_ok_spec st schema_id data tso now schema ms tr c
    hreg hid hms hres
  subst hc
  exact ⟨hlog, fun k _ hk => dictLookup_dictUpdate_some _ _ _ hnd hk⟩

/-- Witness for C9: event data carrying `__schema__: "fake"` makes the
recorded envelope report `"fake"` instead of the actual schema id. -/
theorem c9_witness : dictLookup cCap9 "__schema__" = some (.str "fake") := by
  have h := c9_caller_fields_override_reserved stS "S" [("__schema__", Value.str "fake")]
    none dt0 schemaS [] ⟨[], false, true, 0, [cCap9], []⟩ cCap9 rfl rfl rfl (by decide) rfl
  exact (h.2 "__schema__" (by simp) rfl).trans rfl

/-- Claim C6 (amended): for every schema id that has (possibly empty)
entries in the listener tables — as every registered schema id does — if
no handlers are attached and both of its listener sets are empty, `emit`
returns `None` with a completely empty effect trace: no warning, no
validation, no modifier application, no record, no scheduling. -/
theorem c6_fast_exit_no_observers
    (st : EventLoggerState) (schema_id : String) (data : Data)
    (tso : Option Datetime) (now : Datetime)
    (hh : st.handlers = [])
    (hmls : dictLookup st.modifiedListeners schema_id = some [])
    (huls : dictLookup st.unmodifiedListeners schema_id = some []) :
    emit st schema_id data tso now = (Trace.empty, .ok none) :=
  emit_fast_exit st schema_id data tso now hh hmls huls

/-- Witness for C6 (amended): concrete fast exit on a registered schema. -/
theorem c6_witness :
    emit ⟨[], [("S", schemaS)], [("S", [])], [("S", [])], [("S", [])]⟩ "S" [] none dt0
      = (Trace.empty, .ok none) :=
  c6_fast_exit_no_observers ⟨[], [("S", schemaS)], [("S", [])], [("S", [])], [("S", [])]⟩
    "S" [] none dt0 rfl rfl rfl

/-- Counterexample to C6 as stated: for an id absent from the tables (an
unregistered schema), the fast-exit subscripts raise `KeyError` instead of
returning `None`. -/
theorem c6_counterexample :
    emit stEmpty "S" [] none dt0 = (Trace.empty, .error (.keyError "S"))
    ∧ (emit stEmpty "S" [] none dt0).2 ≠ .ok none := by
  refine ⟨rfl, ?_⟩
  intro h
  have h2 : (Except.error (PyError.keyError "S") : Except PyError (Option Data))
      = .ok none := h
  exact Except.noConfusion h2

theorem setAdd_absent {α : Type} (tag : α → Nat) (l : List α) (a : α)
    (h : tag a ∉ l.map tag) : setAdd tag l a = l ++ [a] := by
  have hany : (l.any (fun x => tag x = tag a)) = false := by
    rw [List.any_eq_false]
    intro x hx
    simp only [decide_eq_true_eq]
    intro he
    exact h (he ▸ List.mem_map_of_mem tag hx)
  simp [setAdd, hany]

theorem setAdd_present {α : Type} (tag : α → Nat) (l : List α) (a : α)
    (h : tag a ∈ l.map tag) : setAdd tag l a = l := by
  have hany : (l.any (fun x => tag x = tag a)) = true := by
    rw [List.any_eq_true]
    obtain ⟨x, hx, he⟩ := List.mem_map.mp h
    exact ⟨x, hx, by simp [he]⟩
  simp [setAdd, hany]

theorem setDiscard_append_self {α : Type} (tag : α → Nat) (l : List α) (a : α) :
    setDiscard tag (l ++ [a]) a = setDiscard tag l a := by
  simp [setDiscard, List.filter_append]

theorem setDiscard_absent {α : Type} (tag : α → Nat) (l : List α) (a : α)
    (h : tag a ∉ l.map tag) : setDiscard tag l a = l := by
  rw [setDiscard, List.filter_eq_self]
  intro x hx
  simp only [ne_eq, decide_not, Bool.not_eq_eq_eq_not, Bool.not_true, decide_eq_false_iff_not]
  intro he
  exact h (he ▸ List.mem_map_of_mem tag hx)

theorem truthy_some (s : String) (h : s ≠ "") : truthy (some s) = true := by
  have he2 : s.isEmpty = false := by
    cases he : s.isEmpty
    · rfl
    · exact absurd ((String.isEmpty_iff s).mp he) h
  simp [truthy, he2]

theorem addListenerFold_noop (keys : List String) (st : EventLoggerState) (sid : String)
    (l : Listener) (ls : List Listener)
    (hls : dictLookup st.unmodifiedListeners sid = some ls)
    (hmem : l.id ∈ ls.map Listener.id) :
    addListenerFold false (some sid) l keys st = .ok st := by
  induction keys with
  | nil => rfl
  | cons k ks ih =>
    have hstep : addListenerStep false (some sid) l st k = .ok st := by
      simp only [addListenerStep]
      by_cases hk : k = sid
      · subst hk
        simp only [hls]
        rw [setAdd_present Listener.id ls l hmem]
        rw [dictSet_self _ _ _ hls]
        simp
      · simp [hk]
    simp only [addListenerFold, hstep]
    exact ih

theorem addRemoveModifier_roundtrip (st : EventLoggerState) (sid : String)
    (m : Modifier) (ms : List Modifier)
    (hsid : sid ≠ "")
    (hms : dictLookup st.modifiers sid = some ms)
    (hmsig : m.sig = expectedModifierSig)
    (hmabs : m.id ∉ ms.map Modifier.id) :
    (addModifier st (some sid) m).bind (fun s1 => removeModifier s1 (some sid) m)
      = .ok st := by
  have ht := truthy_some sid hsid
  have hadd : addModifier st (some sid) m
      = .ok { st with modifiers := dictSet st.modifiers sid (ms ++ [m]) } := by
    simp [addModifier, hmsig, ht, hms, setAdd_absent Modifier.id ms m hmabs]
  rw [hadd]
  show removeModifier { st with modifiers := dictSet st.modifiers sid (ms ++ [m]) }
    (some sid) m = .ok st
  have hlook : dictLookup (dictSet st.modifiers sid (ms ++ [m])) sid = some (ms ++ [m]) := by
    rw [dictLookup_dictSet]
    simp
  simp only [removeModifier, ht, if_true, hlook]
  rw [setDiscard_append_self, setDiscard_absent Modifier.id ms m hmabs]
  rw [dictSet_dictSet, dictSet_self _ _ _ hms]

theorem addRemoveModListener_roundtrip (st : EventLoggerState) (sid : String)
    (l : Listener) (mls uls : List Listener)
    (hsid : sid ≠ "")
    (hmls : dictLookup st.modifiedListeners sid = some mls)
    (huls : dictLookup st.unmodifiedListeners sid = some uls)
    (hlsig : l.sig = expectedListenerSig)
    (hlabs1 : l.id ∉ mls.map Listener.id)
    (hlabs2 : l.id ∉ uls.map Listener.id) :
    (addListener st true (some sid) l).bind (fun s1 => removeListener s1 (some sid) l)
      = .ok st := by
  have ht := truthy_some sid hsid
  have hadd : addListener st true (some sid) l
      = .ok { st with modifiedListeners := dictSet st.modifiedListeners sid (mls ++ [l]) } := by
    simp [addListener, hlsig, ht, hmls, setAdd_absent Listener.id mls l hlabs1]
  rw [hadd]
  show removeListener
    { st with modifiedListeners := dictSet st.modifiedListeners sid (mls ++ [l]) }
    (some sid) l = .ok st
  have hlook : dictLookup (dictSet st.modifiedListeners sid (mls ++ [l])) sid
      = some (mls ++ [l]) := by
    rw [dictLookup_dictSet]
    simp
  simp only [removeListener, ht, if_true, hlook, huls]
  rw [setDiscard_append_self, setDiscard_absent Listener.id mls l hlabs1]
  rw [setDiscard_absent Listener.id uls l hlabs2]
  rw [dictSet_dictSet, dictSet_self _ _ _ hmls, dictSet_self _ _ _ huls]

theorem addRemoveUnmodListener_roundtrip (st : EventLoggerState) (sid : String)
    (l : Listener) (mls uls : List Listener)
    (hsid : sid ≠ "")
    (hmls : dictLookup st.modifiedListeners sid = some mls)
    (huls : dictLookup st.unmodifiedListeners sid = some uls)
    (hlsig : l.sig = expectedListenerSig)
    (hlabs1 : l.id ∉ mls.map Listener.id)
    (hlabs2 : l.id ∉ uls.map Listener.id) :
    (addListener st false (some sid) l).bind (fun s1 => removeListener s1 (some sid) l)
      = .ok st := by
  have ht := truthy_some sid hsid
  have hloop := addListenerFold_noop
    (st.registry.map Prod.fst)
    { st with unmodifiedListeners := dictSet st.unmodifiedListeners sid (uls ++ [l]) }
    sid l (uls ++ [l])
    (by rw [dictLookup_dictSet]; simp)
    (by simp)
  have hadd : addListener st false (some sid) l
      = .ok { st with
              unmodifiedListeners := dictSet st.unmodifiedListeners sid (uls ++ [l]) } := by
    simp only [addListener, hlsig, ht, if_true, huls,
      setAdd_absent Listener.id uls l hlabs2]
    simp only [addListenerLoop] at hloop ⊢
    simpa using hloop
  rw [hadd]
  show removeListener
    { st with unmodifiedListeners := dictSet st.unmodifiedListeners sid (uls ++ [l]) }
    (some sid) l = .ok st
  have hlook : dictLookup (dictSet st.unmodifiedListeners sid (uls ++ [l])) sid
      = some (uls ++ [l]) := by
    rw [dictLookup_dictSet]
    simp
  simp only [removeListener, ht, if_true, hlook, hmls]
  rw [setDiscard_append_self, setDiscard_absent Listener.id uls l hlabs2]
  rw [setDiscard_absent Listener.id mls l hlabs1]
  rw [dictSet_dictSet, dictSet_self _ _ _ huls, dictSet_self _ _ _ hmls]

/-- Claim C8 (amended): for a registered schema id, adding then removing a
valid modifier that is not already in that schema's modifier set — or a
valid listener that is not already in either of that schema's listener
sets — restores the callback tables exactly.  The provisos are forced by
set semantics: re-adding a present callable is a no-op, so the following
removal strictly shrinks the set, and `remove_listener` discards from both
listener sets at once. -/
theorem c8_add_remove_roundtrip (st : EventLoggerState) (sid : String)
    (m : Modifier) (l : Listener)
    (ms : List Modifier) (mls uls : List Listener)
    (hsid : sid ≠ "")
    (hms : dictLookup st.modifiers sid = some ms)
    (hmsig : m.sig = expectedModifierSig)
    (hmabs : m.id ∉ ms.map Modifier.id)
    (hmls : dictLookup st.modifiedListeners sid = some mls)
    (huls : dictLookup st.unmodifiedListeners sid = some uls)
    (hlsig : l.sig = expectedListenerSig)
    (hlabs1 : l.id ∉ mls.map Listener.id)
    (hlabs2 : l.id ∉ uls.map Listener.id) :
    (addModifier st (some sid) m).bind (fun s1 => removeModifier s1 (some sid) m) = .ok st
    ∧ (addListener st true (some sid) l).bind
        (fun s1 => removeListener s1 (some sid) l) = .ok st
    ∧ (addListener st false (some sid) l).bind
        (fun s1 => removeListener s1 (some sid) l) = .ok st :=
  ⟨addRemoveModifier_roundtrip st sid m ms hsid hms hmsig hmabs,
   addRemoveModListener_roundtrip st sid l mls uls hsid hmls huls hlsig hlabs1 hlabs2,
   addRemoveUnmodListener_roundtrip st sid l mls uls hsid hmls huls hlsig hlabs1 hlabs2⟩

/-- Witness for C8 at a concrete state with empty callback sets. -/
theorem c8_witness :
    (addModifier stRT (some "S") cM).bind (fun s1 => removeModifier s1 (some "S") cM)
      = .ok stRT
    ∧ (addListener stRT true (some "S") cL).bind
        (fun s1 => removeListener s1 (some "S") cL) = .ok stRT
    ∧ (addListener stRT false (some "S") cL).bind
        (fun s1 => removeListener s1 (some "S") cL) = .ok stRT :=
  c8_add_remove_roundtrip stRT "S" cM cL [] [] [] (by decide) rfl rfl (by simp)
    rfl rfl rfl (by simp) (by simp)

/-- Counterexample to C8 as stated: if the modifier is already present,
`add` is a set no-op and `remove` then deletes the pre-existing entry, so
the tables do not return to their prior state. -/
theorem c8_counterexample :
    (addModifier stRTm (some "S") cM).bind (fun s1 => removeModifier s1 (some "S") cM)
      ≠ .ok stRTm := by
  intro h
  have h2 := congrArg
    (fun r => match r with
      | Except.ok s => ((dictLookup s.modifiers "S").getD []).length
      | Except.error _ => 99) h
  have h3 : (0 : Nat) = 1 := h2
  exact absurd h3 (by decide)

/-- Claim C10: `register_event_schema` on an id the registry already holds
(and accepts again) unconditionally resets that id's modifier set,
modified-listener set and unmodified-listener set to empty. -/
theorem c10_reregister_resets_callbacks (st : EventLoggerState) (es : Schema)
    (hprev : (dictLookup st.registry es.id).isSome) :
    dictLookup (registerEventSchema st es).modifiers es.id = some []
    ∧ dictLookup (registerEventSchema st es).modifiedListeners es.id = some []
    ∧ dictLookup (registerEventSchema st es).unmodifiedListeners es.id = some [] := by
  refine ⟨?_, ?_, ?_⟩ <;> simp [registerEventSchema, dictLookup_dictSet]

/-- Witness for C10: re-registering `S` wipes the installed modifier and
both listeners. -/
theorem c10_witness :
    dictLookup (registerEventSchema stPrev schemaS).modifiers "S" = some []
    ∧ dictLookup (registerEventSchema stPrev schemaS).modifiedListeners "S" = some []
    ∧ dictLookup (registerEventSchema stPrev schemaS).unmodifiedListeners "S" = some [] :=
  c10_reregister_resets_callbacks stPrev schemaS rfl
